import Mathlib

/-!
Verification of the gesture-detection core of the ai-powered-gesture-detection
repository against its natural-language specification.

The development shallowly embeds the two analyzer variants and their consensus
machinery over exact rational arithmetic:

* `Landmarks`: the MediaPipe landmark-geometry analyzer and its per-frame
  consensus state (`calculateFingerExtended`, `determineGesture`,
  `processResults`, ...).
* `Pixel`: the pixel-heuristic analyzer of gestureUtils.ts (skin map, edge
  map, template matching, shape heuristics, dark/bright pre-filter) and the
  multi-frame `detectGesture` step with its cooldown and frame history.
* `Component`: the UI component's manual-capture handler.

Modelling conventions, used throughout and noted at each definition they touch:

* JavaScript numbers are embedded as exact rationals (ℚ); integer counters as ℕ/ℤ.
* The source compares Euclidean distances `Math.sqrt d > k * Math.sqrt b` with
  `d, b ≥ 0` and `k > 0`; we embed the squared form `d > k^2 * b`, which is
  equivalent over the reals since `Real.sqrt` is monotone (lemma
  `sqrt_gt_scaled_sqrt_iff` records the equivalence).
* A JavaScript out-of-bounds array element is `undefined`; dereferencing a
  field of it throws. Landmark dereferences are therefore modelled in the
  `Option` monad: `Option.none` means the analyzer call threw.
* JavaScript float division by zero yields NaN/Infinity; the one place the
  source can divide by zero (vector normalization in
  `calculateAngleBetweenFingers`) is modelled by returning `Option.none`
  (NaN), and every comparison against NaN is false.
-/

namespace Landmarks

/-- One normalized MediaPipe hand landmark (`{x, y, z}`). -/
structure Landmark where
  x : ℚ
  y : ℚ
  z : ℚ
deriving DecidableEq

/-- The `GestureType` of the landmark variant (part_004). -/
inductive GestureType
  | none
  | victory
  | thumbs_up
  | open_palm
  | pointing
  | fist
  | manual
deriving DecidableEq

/-- The `GestureResult` record (gesture plus confidence); the `landmarks` field of the
source record is a pass-through of the input and is not retained here. -/
structure GestureResult where
  gesture : GestureType
  confidence : ℚ
deriving DecidableEq

/-- The square of `calculateDistance` (the source takes `Math.sqrt` of this
sum; all its uses compare distances against positively scaled distances, so
the squared form is compared with squared factors — see the header note). -/
def calculateDistanceSq (point1 point2 : Landmark) : ℚ :=
  (point1.x - point2.x) ^ 2 + (point1.y - point2.y) ^ 2 + (point1.z - point2.z) ^ 2

/-- Embeds `isThumbExtended`: `distance(tip, palm) > 1.5 * distance(base, palm)`,
embedded squared (`1.5^2 = 9/4`). The three landmark reads are dereferenced,
so a missing one throws (`Option.none`). -/
def isThumbExtended (landmarks : List Landmark) : Option Bool := do
  let thumbTip ← landmarks[4]?
  let thumbBase ← landmarks[2]?
  let palmBase ← landmarks[0]?
  pure (decide (calculateDistanceSq thumbTip palmBase >
    calculateDistanceSq thumbBase palmBase * (9 / 4)))

/-- Embeds `isFingerExtended`: tip farther from the palm than the middle joint by the
factor 1.2 (squared: `36/25`). The source fetches `landmarks[baseIdx]` but
never dereferences it, so a missing base alone does not throw; the fetch is
kept as a plain (non-failing) lookup. -/
def isFingerExtended (landmarks : List Landmark) (baseIdx midIdx tipIdx : ℕ) :
    Option Bool := do
  let _fingerBase := landmarks[baseIdx]?
  let fingerMid ← landmarks[midIdx]?
  let fingerTip ← landmarks[tipIdx]?
  let palmBase ← landmarks[0]?
  pure (decide (calculateDistanceSq fingerTip palmBase >
    calculateDistanceSq fingerMid palmBase * (36 / 25)))

/-- The record returned by `calculateFingerExtended`. -/
structure FingerExtended where
  thumb : Bool
  index : Bool
  middle : Bool
  ring : Bool
  pinky : Bool
deriving DecidableEq

/-- Embeds `calculateFingerExtended`: per-finger extension booleans. -/
def calculateFingerExtended (landmarks : List Landmark) : Option FingerExtended := do
  let thumbExtended ← isThumbExtended landmarks
  let indexExtended ← isFingerExtended landmarks 5 6 8
  let middleExtended ← isFingerExtended landmarks 9 10 12
  let ringExtended ← isFingerExtended landmarks 13 14 16
  let pinkyExtended ← isFingerExtended landmarks 17 18 20
  pure ⟨thumbExtended, indexExtended, middleExtended, ringExtended, pinkyExtended⟩

/-- Embeds `calculateAngleBetweenFingers`: the source normalizes the two palm→tip 2D
direction vectors by their Euclidean lengths, takes the dot product `d` and
returns the angle proxy `(1 - d)/2`. Over exact arithmetic we return the pair
`(c, P)` with `c` the unnormalized dot product and `P` the product of the two
squared lengths, so the source's value is `(1 - c/√P)/2`. When either vector
has zero magnitude the JavaScript division is `0/0 = NaN`; that case is
`Option.none`, and NaN propagates to every later comparison as false. -/
def calculateAngleBetweenFingers (palmPoint finger1Tip finger2Tip : Landmark) :
    Option (ℚ × ℚ) :=
  let v1x := finger1Tip.x - palmPoint.x
  let v1y := finger1Tip.y - palmPoint.y
  let v2x := finger2Tip.x - palmPoint.x
  let v2y := finger2Tip.y - palmPoint.y
  let length1Sq := v1x ^ 2 + v1y ^ 2
  let length2Sq := v2x ^ 2 + v2y ^ 2
  if length1Sq = 0 ∨ length2Sq = 0 then Option.none
  else some (v1x * v2x + v1y * v2y, length1Sq * length2Sq)

/-- The source's test `angle > 0.3 && angle < 0.7` on the angle
`(1 - c/√P)/2`: equivalent to `|c/√P| < 2/5`, i.e. `25 c² < 4 P` (with `P > 0`
whenever the angle is a number — see `angle_range_iff_real`); on NaN
(`Option.none`) both float comparisons are false. -/
def angleInVRange (a : Option (ℚ × ℚ)) : Bool :=
  match a with
  | Option.none => false
  | some (c, p) => decide (25 * c ^ 2 < 4 * p)

/-- Embeds `determineGesture`: pattern-matches the five extension booleans. Only the
first branch (index and middle extended, thumb, ring and pinky all not) yields
`victory`; the inter-finger angle only chooses between confidence 0.9 and 0.7.
The three landmark reads of the victory branch are dereferenced inside
`calculateAngleBetweenFingers`. -/
def determineGesture (fingerExtended : FingerExtended) (landmarks : List Landmark) :
    Option GestureResult :=
  if fingerExtended.index && fingerExtended.middle && !fingerExtended.thumb &&
      !fingerExtended.ring && !fingerExtended.pinky then do
    let indexTip ← landmarks[8]?
    let middleTip ← landmarks[12]?
    let indexBase ← landmarks[5]?
    let angle := calculateAngleBetweenFingers indexBase indexTip middleTip
    if angleInVRange angle then pure ⟨GestureType.victory, 9 / 10⟩
    else pure ⟨GestureType.victory, 7 / 10⟩
  else if fingerExtended.thumb && !fingerExtended.index && !fingerExtended.middle &&
      !fingerExtended.ring && !fingerExtended.pinky then
    pure ⟨GestureType.thumbs_up, 8 / 10⟩
  else if fingerExtended.thumb && fingerExtended.index && fingerExtended.middle &&
      fingerExtended.ring && fingerExtended.pinky then
    pure ⟨GestureType.open_palm, 8 / 10⟩
  else if !fingerExtended.thumb && fingerExtended.index && !fingerExtended.middle &&
      !fingerExtended.ring && !fingerExtended.pinky then
    pure ⟨GestureType.pointing, 85 / 100⟩
  else if !fingerExtended.thumb && !fingerExtended.index && !fingerExtended.middle &&
      !fingerExtended.ring && !fingerExtended.pinky then
    pure ⟨GestureType.fist, 3 / 4⟩
  else
    pure ⟨GestureType.none, 1 / 2⟩

/-- The per-frame input delivered by the model callback: the first detected
hand's landmark list together with `multiHandedness[0].label`; `Option.none`
models `results.multiHandLandmarks` missing or empty. -/
structure HandFrame where
  landmarks : List Landmark
  handedness : String

/-- Sensitivity level of the landmark variant. -/
inductive Sensitivity
  | low
  | medium
  | high
deriving DecidableEq

/-- The mutable module `state` fields that the detection path touches
(`model`, `camera` and video-time bookkeeping carry no detection logic and
are omitted). -/
structure HandState where
  handedness : Option String
  currentGesture : GestureType
  confidence : ℚ
  consecutiveFrames : ℕ
  cooldownActive : Bool
  sensitivity : Sensitivity
deriving DecidableEq

/-- The initial module state: gesture `none`, confidence 0, counter 0,
cooldown off, sensitivity `high`. -/
def initialHandState : HandState :=
  ⟨Option.none, GestureType.none, 0, 0, false, Sensitivity.high⟩

/-- The `requiredFrames` value as computed inside `processResults`:
`1`, raised to `2` for medium and `3` for low. -/
def requiredFramesFor (s : Sensitivity) : ℕ :=
  match s with
  | Sensitivity.high => 1
  | Sensitivity.medium => 2
  | Sensitivity.low => 3

/-- Embeds `processResults`, the consensus step of the landmark variant. `Option.none`
as a result means the call threw (only possible on a malformed landmark list;
the source mutates `state.handedness` before the throwing read, a partial
mutation not retained here since the exception escapes the callback). -/
def processResults (results : Option HandFrame) (st : HandState) : Option HandState :=
  match results with
  | Option.none =>
      some { st with currentGesture := GestureType.none, confidence := 0,
                     consecutiveFrames := 0 }
  | some frame => do
      let st1 := { st with handedness := some frame.handedness }
      let fingerExtended ← calculateFingerExtended frame.landmarks
      let result ← determineGesture fingerExtended frame.landmarks
      if result.confidence > 3 / 5 then
        let st2 :=
          if result.gesture = st1.currentGesture then
            { st1 with consecutiveFrames := st1.consecutiveFrames + 1 }
          else
            { st1 with consecutiveFrames := 0 }
        if requiredFramesFor st2.sensitivity ≤ st2.consecutiveFrames then
          pure { st2 with currentGesture := result.gesture,
                          confidence := result.confidence }
        else
          pure st2
      else
        pure st1

/-- The externally issued operations that mutate the module state: a frame
callback, `setDetectionSensitivity`, and `resetDetectionCooldown`. -/
inductive DetectorEvent
  | frame (results : Option HandFrame)
  | setSensitivity (level : Sensitivity)
  | resetCooldown

/-- One event applied to the state. A throwing frame callback leaves the
state unchanged (the exception escapes before any mutation other than the
`handedness` label, which carries no detection logic). -/
def handleEvent (e : DetectorEvent) (st : HandState) : HandState :=
  match e with
  | DetectorEvent.frame r => (processResults r st).getD st
  | DetectorEvent.setSensitivity level => { st with sensitivity := level }
  | DetectorEvent.resetCooldown =>
      { st with cooldownActive := false, consecutiveFrames := 0 }

/-- A state is reachable when some event sequence produces it from the
initial module state. -/
def Reachable (st : HandState) : Prop :=
  ∃ evs : List DetectorEvent,
    st = evs.foldl (fun s e => handleEvent e s) initialHandState

/-- The per-frame verdict the consensus step consumes is negative when no
hand is present, or when the geometry analyzer's result is not `victory`. -/
def NegativeVerdict (results : Option HandFrame) : Prop :=
  match results with
  | Option.none => True
  | some frame =>
      ∃ fe gr, calculateFingerExtended frame.landmarks = some fe ∧
        determineGesture fe frame.landmarks = some gr ∧
        gr.gesture ≠ GestureType.victory

end Landmarks

namespace Pixel

/-- The `GestureType` of gestureUtils.ts: `victory`, `manual`, `none`. -/
inductive GestureType
  | victory
  | manual
  | none
deriving DecidableEq

/-- The `sensitivitySettings` record of gestureUtils.ts. -/
structure SensitivitySettings where
  skinThreshold : ℚ
  edgeThreshold : ℚ
  minConfidence : ℚ
  maxConfidence : ℚ
  minSkinRatio : ℚ
  maxSkinRatio : ℚ
  frameThreshold : ℕ
  vShapeMinScore : ℚ
deriving DecidableEq

/-- Sensitivity level selected through `setDetectionSensitivity`. -/
inductive SensitivityLevel
  | low
  | medium
  | high
deriving DecidableEq

/-- The three tables assigned by `setDetectionSensitivity`. -/
def sensitivitySettingsFor (level : SensitivityLevel) : SensitivitySettings :=
  match level with
  | SensitivityLevel.low =>
      ⟨4/10, 35/100, 85/100, 95/100, 12/100, 35/100, 3, 7⟩
  | SensitivityLevel.medium =>
      ⟨38/100, 28/100, 78/100, 95/100, 8/100, 35/100, 2, 5⟩
  | SensitivityLevel.high =>
      ⟨3/10, 25/100, 65/100, 95/100, 6/100, 4/10, 1, 3⟩

/-- The module-initialization value of `sensitivitySettings` (it coincides
with the medium table). -/
def initialSensitivitySettings : SensitivitySettings :=
  sensitivitySettingsFor SensitivityLevel.medium

/-- One rectangular region of a V-sign template. -/
structure TemplateRegion where
  x : ℚ
  y : ℚ
  width : ℚ
  height : ℚ
  isSkin : Bool

/-- One entry of the `vSignTemplates` library. -/
structure VTemplate where
  name : String
  regions : List TemplateRegion
  weight : ℚ

/-- The fixed `vSignTemplates` library (classic, wide, tilted). -/
def vSignTemplates : List VTemplate :=
  [⟨"classic_v",
    [⟨4/10, 3/10, 1/10, 4/10, true⟩,
     ⟨5/10, 4/10, 1/10, 1/10, false⟩,
     ⟨6/10, 3/10, 1/10, 4/10, true⟩,
     ⟨45/100, 7/10, 2/10, 2/10, true⟩], 1⟩,
   ⟨"wide_v",
    [⟨3/10, 3/10, 1/10, 4/10, true⟩,
     ⟨4/10, 35/100, 2/10, 2/10, false⟩,
     ⟨6/10, 3/10, 1/10, 4/10, true⟩,
     ⟨4/10, 7/10, 2/10, 2/10, true⟩], 8/10⟩,
   ⟨"tilted_v",
    [⟨35/100, 25/100, 1/10, 4/10, true⟩,
     ⟨45/100, 4/10, 1/10, 1/10, false⟩,
     ⟨55/100, 35/100, 1/10, 4/10, true⟩,
     ⟨45/100, 7/10, 2/10, 2/10, true⟩], 7/10⟩]

/-- A decoded RGBA frame: the flat `Uint8ClampedArray` byte list plus its
dimensions (`data.length = 4 * width * height` for a well-formed frame). -/
structure ImageData where
  data : List ℕ
  width : ℕ
  height : ℕ

/-- A byte read `data[i]`; all reads in the pipeline stay in range for a
well-formed frame, so the out-of-range default is never observed there. -/
def getByte (data : List ℕ) (i : ℕ) : ℕ := data.getD i 0

/-- A 2D boolean map cell `m[y][x]`; all map reads in the pipeline are
bounds-guarded by their loops, so the default is never observed there. -/
def cell (m : List (List Bool)) (y x : ℕ) : Bool := (m.getD y []).getD x false

/-- Computes `Math.floor` of a nonnegative exact rational, as a natural number (all
its uses in the pipeline are on nonnegative values). -/
def jsFloorNat (q : ℚ) : ℕ := (⌊q⌋).toNat

/-- Embeds `isSkinTone`: dark/bright guards, a minimum color spread, then the
normalized-RGB thresholds. -/
def isSkinTone (r g b : ℕ) : Bool :=
  if r < 60 || g < 40 || b < 20 then false
  else if decide (r > 250) && decide (g > 250) && decide (b > 250) then false
  else if max r (max g b) - min r (min g b) < 15 then false
  else if r + g + b = 0 then false
  else
    let sum : ℚ := ((r + g + b : ℕ) : ℚ)
    let rn : ℚ := (r : ℚ) / sum
    let gn : ℚ := (g : ℚ) / sum
    let bn : ℚ := (b : ℚ) / sum
    decide (rn > 35/100) && decide (rn < 465/1000) &&
    decide (gn > 27/100) && decide (gn < 37/100) &&
    decide (bn > 12/100) && decide (bn < 25/100) &&
    decide (|rn - gn| > 8/100)

/-- The raw per-pixel skin classification built by `createSkinMap` before
refinement, reading bytes at `(y * width + x) * 4`. -/
def rawSkinMap (data : List ℕ) (width height : ℕ) : List (List Bool) :=
  (List.range height).map (fun y => (List.range width).map (fun x =>
    let i := (y * width + x) * 4
    isSkinTone (getByte data i) (getByte data (i + 1)) (getByte data (i + 2))))

/-- The number of skin cells in the 3×3 neighborhood of `(x, y)` (center
included), as counted by `refineSkinMap`. -/
def neighborhoodSkinCount (skinMap : List (List Bool)) (y x : ℕ) : ℕ :=
  ((List.range 3).map (fun dy =>
    (List.range 3).countP (fun dx => cell skinMap (y + dy - 1) (x + dx - 1)))).sum

/-- Embeds `refineSkinMap`: interior cells (`1 ≤ y ≤ height-2`, `1 ≤ x ≤ width-2`)
lose isolated skin (fewer than 4 of 9 neighbors skin) and gain filled gaps
(at least 6 of 9 neighbors skin); all reads are from the unrefined map, so the
pass is a pure function of it. Border cells are copied unchanged. -/
def refineSkinMap (skinMap : List (List Bool)) (width height : ℕ) : List (List Bool) :=
  (List.range height).map (fun y => (List.range width).map (fun x =>
    if 1 ≤ y ∧ y + 1 < height ∧ 1 ≤ x ∧ x + 1 < width then
      let skinCount := neighborhoodSkinCount skinMap y x
      let cur := cell skinMap y x
      if cur && decide (skinCount < 4) then false
      else if !cur && decide (6 ≤ skinCount) then true
      else cur
    else cell skinMap y x))

/-- Embeds `createSkinMap`: the raw skin classification followed by refinement. -/
def createSkinMap (data : List ℕ) (width height : ℕ) : List (List Bool) :=
  refineSkinMap (rawSkinMap data width height) width height

/-- Embeds `detectEdges`: an interior skin cell is an edge when at least 2 of its 8
neighbors are non-skin; non-skin and border cells are never edges. -/
def detectEdges (skinMap : List (List Bool)) (width height : ℕ) : List (List Bool) :=
  (List.range height).map (fun y => (List.range width).map (fun x =>
    if 1 ≤ y ∧ y + 1 < height ∧ 1 ≤ x ∧ x + 1 < width then
      if cell skinMap y x then
        let nonSkinNeighbors :=
          ((List.range 3).map (fun dy =>
            (List.range 3).countP (fun dx =>
              !(dy = 1 && dx = 1) && !(cell skinMap (y + dy - 1) (x + dx - 1))))).sum
        decide (2 ≤ nonSkinNeighbors)
      else false
    else false))

/-- Embeds `matchTemplate`: per region, the fraction of its in-bounds pixels whose
skin label matches the expected one; region scores are averaged over the
region count, weighted and scaled to 0–10. The region's pixel rows and
columns run from the floored start for the floored extent, clipped at the
frame bounds exactly as the source's loop conditions do. -/
def matchTemplate (skinMap edges : List (List Bool)) (template : VTemplate)
    (width height : ℕ) : ℚ :=
  let totalRegions := template.regions.length
  let score := (template.regions.map (fun region =>
    let startX := jsFloorNat (region.x * width)
    let startY := jsFloorNat (region.y * height)
    let regionWidth := jsFloorNat (region.width * width)
    let regionHeight := jsFloorNat (region.height * height)
    let ys := ((List.range regionHeight).map (fun k => startY + k)).filter
      (fun y => y < height)
    let xs := ((List.range regionWidth).map (fun k => startX + k)).filter
      (fun x => x < width)
    let matchingPixels :=
      (ys.map (fun y => xs.countP (fun x => cell skinMap y x == region.isSkin))).sum
    let totalPixels := ys.length * xs.length
    if 0 < totalPixels then (matchingPixels : ℚ) / totalPixels else 0)).sum
  let normalizedScore := score / totalRegions * template.weight
  normalizedScore * 10

/-- The left-side scan of the finger-gap search: indices start at
`max(0, x - width/5)` (an exact rational when `width` is not a multiple of 5)
and advance by 1 while `< x`, each floored before the map read. -/
def leftHasSkinAt (skinMap : List (List Bool)) (width x y : ℕ) : Bool :=
  let start : ℚ := max 0 ((x : ℚ) - (width : ℚ) / 5)
  let iters : ℕ := (⌈(x : ℚ) - start⌉).toNat
  (List.range iters).any (fun k => cell skinMap y (jsFloorNat (start + k)))

/-- The right-side scan of the finger-gap search: integer indices from
`x + 1` while `< min(width, x + width/5)`. -/
def rightHasSkinAt (skinMap : List (List Bool)) (width x y : ℕ) : Bool :=
  let bound : ℚ := min (width : ℚ) ((x : ℚ) + (width : ℚ) / 5)
  let iters : ℕ := (⌈bound⌉ - (x + 1 : ℕ)).toNat
  (List.range iters).any (fun k => cell skinMap y (x + 1 + k))

/-- A non-skin pixel of the vertical mid-band (`height/3 < y < 2·height/3`)
with skin found on both sides: the source's finger-gap evidence. -/
def isGapPixel (skinMap : List (List Bool)) (width height x y : ℕ) : Bool :=
  decide ((y : ℚ) > (height : ℚ) / 3) && decide ((y : ℚ) < (height : ℚ) * 2 / 3) &&
  !(cell skinMap y x) && leftHasSkinAt skinMap width x y &&
  rightHasSkinAt skinMap width x y

/-- Embeds `checkDiagonal`: walk `len` steps from `(startX, startY)` by `(dx, dy)`,
stopping at the first out-of-bounds position, and require edge hits on at
least a third and skin hits on at least half of `len` (float divisions). -/
def checkDiagonal (edges skinMap : List (List Bool)) (startX startY : ℕ)
    (dx dy : ℤ) (len : ℕ) : Bool :=
  let h : ℤ := edges.length
  let w : ℤ := (edges.getD 0 []).length
  let steps := (List.range len).takeWhile (fun i =>
    decide (0 ≤ (startY : ℤ) + i * dy) && decide ((startY : ℤ) + i * dy < h) &&
    decide (0 ≤ (startX : ℤ) + i * dx) && decide ((startX : ℤ) + i * dx < w))
  let edgeCount := steps.countP (fun i =>
    cell edges ((startY : ℤ) + i * dy).toNat ((startX : ℤ) + i * dx).toNat)
  let skinCount := steps.countP (fun i =>
    cell skinMap ((startY : ℤ) + i * dy).toNat ((startX : ℤ) + i * dx).toNat)
  decide ((edgeCount : ℚ) ≥ (len : ℚ) / 3) && decide ((skinCount : ℚ) ≥ (len : ℚ) / 2)

/-- A lower-half edge pixel whose two upward diagonals both look like
fingers; each such pixel adds 2 to `vShapeScore`. -/
def isVShapePixel (skinMap edges : List (List Bool)) (width height x y : ℕ) : Bool :=
  decide ((y : ℚ) > (height : ℚ) / 2) && cell edges y x &&
  checkDiagonal edges skinMap x y (-1) (-1) 7 &&
  checkDiagonal edges skinMap x y 1 (-1) 7

/-- Embeds `calculateShapeConfidence`: proximity of the skin and edge ratios to
their ideals, the normalized V-shape score and the center-gap bonus, weighted
0.2/0.2/0.3/0.3 and capped at 1. -/
def calculateShapeConfidence (skinRatio edgeRatio : ℚ) (vShapeScore : ℕ)
    (centerGapFound : Bool) (height : ℕ) : ℚ :=
  let idealSkinRatio : ℚ := 15/100
  let idealEdgeRatio : ℚ := 4/100
  let idealVShapeScore : ℚ := (height : ℚ) / 15
  let skinRatioScore := 1 - min (|skinRatio - idealSkinRatio| / idealSkinRatio) 1
  let edgeRatioScore := 1 - min (|edgeRatio - idealEdgeRatio| / idealEdgeRatio) 1
  let vShapeScoreNorm := min ((vShapeScore : ℚ) / idealVShapeScore) 1
  let gapBonus : ℚ := if centerGapFound then 3/10 else 0
  let combinedScore := skinRatioScore * (2/10) + edgeRatioScore * (2/10) +
    vShapeScoreNorm * (3/10) + gapBonus
  min combinedScore 1

/-- The record returned by `analyzeShape`. -/
structure ShapeAnalysis where
  hasVShape : Bool
  hasFingerGap : Bool
  skinRatio : ℚ
  shapeConfidence : ℚ

/-- Embeds `analyzeShape`: ratios, finger-gap and V-shape evidence over the whole
frame. The accumulation loop only ever sets flags and increments counters, so
it is embedded as counts and existential scans over the same pixel set. -/
def analyzeShape (skinMap edges : List (List Bool)) (width height : ℕ)
    (settings : SensitivitySettings) : ShapeAnalysis :=
  let skinPixels := ((List.range height).map (fun y =>
    (List.range width).countP (fun x => cell skinMap y x))).sum
  let edgePixels := ((List.range height).map (fun y =>
    (List.range width).countP (fun x => cell edges y x))).sum
  let gapFound := (List.range height).any (fun y =>
    (List.range width).any (fun x => isGapPixel skinMap width height x y))
  let centerGapFound := (List.range height).any (fun y =>
    (List.range width).any (fun x =>
      isGapPixel skinMap width height x y &&
      decide ((x : ℚ) > (width : ℚ) * (4/10)) &&
      decide ((x : ℚ) < (width : ℚ) * (6/10))))
  let vShapeScore := 2 * ((List.range height).map (fun y =>
    (List.range width).countP (fun x => isVShapePixel skinMap edges width height x y))).sum
  let totalPixels := width * height
  let skinRatio := (skinPixels : ℚ) / totalPixels
  let edgeRatio := (edgePixels : ℚ) / totalPixels
  let hasVShape := decide ((vShapeScore : ℚ) > settings.vShapeMinScore)
  let shapeConfidence :=
    calculateShapeConfidence skinRatio edgeRatio vShapeScore centerGapFound height
  ⟨hasVShape, gapFound, skinRatio, shapeConfidence⟩

/-- The per-frame verdict record of the pixel analyzer. -/
structure FrameVerdict where
  isVictory : Bool
  confidence : ℚ
deriving DecidableEq

/-- The skin map `processImageData` computes for a frame. -/
def skinMapOf (img : ImageData) : List (List Bool) :=
  createSkinMap img.data img.width img.height

/-- The edge map `processImageData` computes for a frame. -/
def edgesOf (img : ImageData) : List (List Bool) :=
  detectEdges (skinMapOf img) img.width img.height

/-- Computes `Math.max(...templateMatchScores)` over the template library (every
template score is nonnegative, so folding `max` from 0 agrees with the
source's spread maximum for a nonempty library). -/
def bestTemplateScoreOf (templates : List VTemplate) (img : ImageData) : ℚ :=
  (templates.map (fun t => matchTemplate (skinMapOf img) (edgesOf img) t
    img.width img.height)).foldl max 0

/-- Computes `Math.min(bestTemplateScore / 10, 1)`. -/
def normalizedTemplateScoreOf (templates : List VTemplate) (img : ImageData) : ℚ :=
  min (bestTemplateScoreOf templates img / 10) 1

/-- The shape analysis `processImageData` computes for a frame. -/
def analyzeShapeOf (settings : SensitivitySettings) (img : ImageData) : ShapeAnalysis :=
  analyzeShape (skinMapOf img) (edgesOf img) img.width img.height settings

/-- Embeds `processImageData`: fuse template matching (weight 0.7) and shape
confidence (weight 0.3); the verdict is positive exactly on
`normalizedTemplateScore > 0.6` and the finger gap and the skin ratio inside
the profile's open band; a negative verdict carries confidence 0.1. -/
def processImageData (settings : SensitivitySettings) (templates : List VTemplate)
    (img : ImageData) : FrameVerdict :=
  let templateWeight : ℚ := 7/10
  let shapeWeight : ℚ := 3/10
  let normalizedTemplateScore := normalizedTemplateScoreOf templates img
  let shape := analyzeShapeOf settings img
  let combinedConfidence := normalizedTemplateScore * templateWeight +
    shape.shapeConfidence * shapeWeight
  let isVictory := decide (normalizedTemplateScore > 3/5) && shape.hasFingerGap &&
    decide (shape.skinRatio > settings.minSkinRatio) &&
    decide (shape.skinRatio < settings.maxSkinRatio)
  ⟨isVictory, if isVictory then combinedConfidence else 1/10⟩

/-- The byte indices `isImageTooDark`/`isImageTooBright` sample: every 16th
byte offset, i.e. every 4th RGBA pixel. -/
def sampledIdxs (data : List ℕ) : List ℕ :=
  List.range' 0 ((data.length + 15) / 16) 16

/-- The sampled brightness `(data[i] + data[i+1] + data[i+2]) / 3`. -/
def brightnessAt (data : List ℕ) (i : ℕ) : ℚ :=
  ((getByte data i + getByte data (i + 1) + getByte data (i + 2) : ℕ) : ℚ) / 3

/-- Embeds `isImageTooDark`: more than 85% of the sampled pixels darker than 30.
(`totalPixels / sampleStep` is the sample count the source divides by.) -/
def isImageTooDark (data : List ℕ) : Bool :=
  let totalPixels : ℚ := (data.length : ℚ) / 4
  let darkPixels := (sampledIdxs data).countP (fun i => decide (brightnessAt data i < 30))
  decide ((darkPixels : ℚ) / (totalPixels / 4) > 85/100)

/-- Embeds `isImageTooBright`: more than 80% of the sampled pixels brighter than 240. -/
def isImageTooBright (data : List ℕ) : Bool :=
  let totalPixels : ℚ := (data.length : ℚ) / 4
  let brightPixels := (sampledIdxs data).countP (fun i => decide (brightnessAt data i > 240))
  decide ((brightPixels : ℚ) / (totalPixels / 4) > 8/10)

/-- Embeds `analyzeFrame`. The source wraps the work in a promise that is resolved
only inside `img.onload` and attaches no error handler, so a decode failure
leaves the promise pending forever: `Option.none` models a promise that never
settles, `some v` a promise resolved with `v`. On a decoded frame: a missing
canvas context resolves `{false, 0}`; a too-dark or too-bright frame resolves
`{false, 0}` before any template matching; otherwise `processImageData` runs. -/
def analyzeFrame (settings : SensitivitySettings) (templates : List VTemplate)
    (ctxOk : Bool) (decoded : Option ImageData) : Option FrameVerdict :=
  match decoded with
  | Option.none => Option.none
  | some img =>
      if !ctxOk then some ⟨false, 0⟩
      else if isImageTooDark img.data || isImageTooBright img.data then some ⟨false, 0⟩
      else some (processImageData settings templates img)

/-- The literal `DETECTION_COOLDOWN_MS = 300` of the module. -/
def DETECTION_COOLDOWN_MS : ℤ := 300

/-- The literal `FRAME_HISTORY_SIZE = 4` of the module. -/
def FRAME_HISTORY_SIZE : ℕ := 4

/-- The literal `REQUIRED_POSITIVE_FRAMES = 3` of the module (this, not the profile's
`frameThreshold`, is what `detectGesture` compares the history against). -/
def REQUIRED_POSITIVE_FRAMES : ℕ := 3

/-- The module-level mutable detector state of gestureUtils.ts. -/
structure DetectorState where
  lastDetectionTime : ℤ
  frameHistory : List Bool
  sensitivitySettings : SensitivitySettings
deriving DecidableEq

/-- The module-initialization detector state. -/
def initialDetectorState : DetectorState := ⟨0, [], initialSensitivitySettings⟩

/-- The `{gesture, confidence}` pair `detectGesture` returns. -/
structure DetectOutput where
  gesture : GestureType
  confidence : ℚ
deriving DecidableEq

/-- The environment of one `detectGesture` call: no video element, a null
frame capture, an exception caught by the surrounding `try`, or the awaited
`analyzeFrame` outcome (where `Option.none` is a promise that never settles,
hanging the call). -/
inductive DetectInput
  | noVideo
  | noCapture
  | thrown
  | frame (analysis : Option FrameVerdict)

/-- One `detectGesture` call, with the cooldown, required-frame and history
literals exposed as parameters (the spec requires them to be configuration;
`detectGesture` below instantiates them with the source's literals). Returns
`Option.none` when the call never resolves (pending `analyzeFrame`). -/
def detectGestureAux (cooldownMs : ℤ) (requiredPositiveFrames historySize : ℕ)
    (now : ℤ) (input : DetectInput) (st : DetectorState) :
    Option (DetectorState × DetectOutput) :=
  match input with
  | DetectInput.noVideo => some (st, ⟨GestureType.none, 0⟩)
  | DetectInput.noCapture =>
      if now - st.lastDetectionTime < cooldownMs then
        some (st, ⟨GestureType.none, 99/100⟩)
      else some (st, ⟨GestureType.none, 1/2⟩)
  | DetectInput.thrown =>
      if now - st.lastDetectionTime < cooldownMs then
        some (st, ⟨GestureType.none, 99/100⟩)
      else some (st, ⟨GestureType.none, 99/100⟩)
  | DetectInput.frame analysis =>
      if now - st.lastDetectionTime < cooldownMs then
        some (st, ⟨GestureType.none, 99/100⟩)
      else
        match analysis with
        | Option.none => Option.none
        | some result =>
            let hist0 := st.frameHistory ++ [result.isVictory]
            let hist := if historySize < hist0.length then hist0.drop 1 else hist0
            let positiveFrames := hist.countP id
            if requiredPositiveFrames ≤ positiveFrames then
              let adjustedConfidence :=
                min (result.confidence * (12/10)) st.sensitivitySettings.maxConfidence
              some ({ st with frameHistory := hist, lastDetectionTime := now },
                ⟨GestureType.victory, adjustedConfidence⟩)
            else if 0 < positiveFrames then
              some ({ st with frameHistory := hist },
                ⟨GestureType.none,
                  result.confidence * positiveFrames / requiredPositiveFrames⟩)
            else
              some ({ st with frameHistory := hist },
                ⟨GestureType.none, min (1/10) result.confidence⟩)

/-- Embeds `detectGesture` with the source's literal cooldown, required-frame count
and history size. -/
def detectGesture (now : ℤ) (input : DetectInput) (st : DetectorState) :
    Option (DetectorState × DetectOutput) :=
  detectGestureAux DETECTION_COOLDOWN_MS REQUIRED_POSITIVE_FRAMES FRAME_HISTORY_SIZE
    now input st

/-- Run a sequence of timed `detectGesture` calls, collecting the outputs of
the calls that resolve (a pending call contributes nothing and leaves the
state untouched). -/
def runDetect (cooldownMs : ℤ) (requiredPositiveFrames historySize : ℕ)
    (st : DetectorState) (inputs : List (ℤ × DetectInput)) :
    DetectorState × List DetectOutput :=
  inputs.foldl (fun acc p =>
    match detectGestureAux cooldownMs requiredPositiveFrames historySize p.1 p.2 acc.1 with
    | Option.none => acc
    | some (st1, out) => (st1, acc.2 ++ [out])) (st, [])

/-- The number of emitted alerts in a run: outputs whose gesture is
`victory` (the component emits exactly one alert per such output). -/
def countVictories (outs : List DetectOutput) : ℕ :=
  outs.countP (fun o => decide (o.gesture = GestureType.victory))

/-- Embeds `setDetectionSensitivity`: installs the selected profile table and clears
the frame history. -/
def setDetectionSensitivity (level : SensitivityLevel) (st : DetectorState) :
    DetectorState :=
  { st with sensitivitySettings := sensitivitySettingsFor level, frameHistory := [] }

end Pixel

namespace Component

/-- The `GestureAlert` record the component emits. -/
structure GestureAlert where
  id : String
  timestamp : ℤ
  gestureType : Pixel.GestureType
  confidence : ℚ
  imageData : Option String
  location : String
  processed : Bool
deriving DecidableEq

/-- The component state the manual-capture handler can see (the cooldown
flag and progress, the last captured image, and the alert bookkeeping
references). -/
structure ComponentState where
  cooldownActive : Bool
  cooldownProgress : ℚ
  lastCapturedImage : Option String
  lastGesture : Pixel.GestureType
  lastAlertTime : ℤ
deriving DecidableEq

/-- Embeds `handleManualCapture`: with no camera nothing is emitted; otherwise the
capture result is stored and, when the capture succeeded, a `manual` alert
with confidence 1.0 is emitted — no field of the consensus or cooldown state
is consulted or modified. `captureResult` is the value `captureImage`
returned (`Option.none` when the canvas/rasterization failed), and `alertId`
the freshly generated identifier. -/
def handleManualCapture (videoPresent : Bool) (captureResult : Option String)
    (now : ℤ) (alertId : String) (s : ComponentState) :
    ComponentState × Option GestureAlert :=
  if !videoPresent then (s, Option.none)
  else
    let s1 := { s with lastCapturedImage := captureResult }
    match captureResult with
    | Option.none => (s1, Option.none)
    | some imageData =>
        (s1, some ⟨alertId, now, Pixel.GestureType.manual, 1, some imageData,
          "Primary Camera", false⟩)

end Component

namespace Landmarks

/-- A closed fist: all 21 landmarks coincide, so no finger is extended. -/
def fistHand : List Landmark := List.replicate 21 ⟨0, 0, 0⟩

/-- A malformed hand of only 5 landmark points. -/
def shortHand : List Landmark := List.replicate 5 ⟨0, 0, 0⟩

/-- A malformed hand of 12 landmark points (used by the witness). -/
def shortHand12 : List Landmark := List.replicate 12 ⟨0, 0, 0⟩

/-- A hand with index, middle AND ring extended, pinky and thumb folded, and
the index/middle tips far apart: the spec's V-sign predicate accepts it
(ring extended is allowed there when the pinky is folded), the source's
`determineGesture` does not. -/
def ringExtendedHand : List Landmark :=
  [⟨0, 0, 0⟩,               -- 0 wrist
   ⟨0, 0, 0⟩,               -- 1
   ⟨0, 0, 1⟩,               -- 2 thumb base
   ⟨0, 0, 0⟩,               -- 3
   ⟨0, 0, 1⟩,               -- 4 thumb tip (not extended: 1 ≤ (9/4)·1)
   ⟨1, 0, 0⟩,               -- 5 index base
   ⟨1, 0, 0⟩,               -- 6 index mid (dist² 1)
   ⟨0, 0, 0⟩,               -- 7
   ⟨0, 2, 0⟩,               -- 8 index tip (dist² 4 > 1.44): extended
   ⟨0, 0, 0⟩,               -- 9 middle base
   ⟨1, 0, 0⟩,               -- 10 middle mid (dist² 1)
   ⟨0, 0, 0⟩,               -- 11
   ⟨2, 0, 0⟩,               -- 12 middle tip (dist² 4): extended
   ⟨0, 0, 0⟩,               -- 13 ring base
   ⟨0, 1, 0⟩,               -- 14 ring mid (dist² 1)
   ⟨0, 0, 0⟩,               -- 15
   ⟨0, -2, 0⟩,              -- 16 ring tip (dist² 4): extended
   ⟨0, 0, 0⟩,               -- 17 pinky base
   ⟨0, 1, 0⟩,               -- 18 pinky mid (dist² 1)
   ⟨0, 0, 0⟩,               -- 19
   ⟨0, 1, 0⟩]               -- 20 pinky tip (dist² 1): not extended

/-- A victory-shaped hand whose index tip sits exactly above the index base
(equal x and y, different z): the palm→index-tip 2D direction vector has zero
magnitude, so the angle computation divides by zero. -/
def zeroMagHand : List Landmark :=
  [⟨0, 0, 0⟩,               -- 0 wrist
   ⟨0, 0, 0⟩,               -- 1
   ⟨0, 0, 1⟩,               -- 2 thumb base
   ⟨0, 0, 0⟩,               -- 3
   ⟨0, 0, 1⟩,               -- 4 thumb tip: not extended
   ⟨1, 1, 0⟩,               -- 5 index base
   ⟨1, 1, 0⟩,               -- 6 index mid (dist² 2)
   ⟨0, 0, 0⟩,               -- 7
   ⟨1, 1, 3⟩,               -- 8 index tip (dist² 11 > 2.88): extended
   ⟨0, 0, 0⟩,               -- 9 middle base
   ⟨0, 1, 0⟩,               -- 10 middle mid (dist² 1)
   ⟨0, 0, 0⟩,               -- 11
   ⟨0, 3, 0⟩,               -- 12 middle tip (dist² 9): extended
   ⟨0, 0, 0⟩,               -- 13 ring base
   ⟨0, 0, 1⟩,               -- 14 ring mid (dist² 1)
   ⟨0, 0, 0⟩,               -- 15
   ⟨0, 0, 1⟩,               -- 16 ring tip (dist² 1): not extended
   ⟨0, 0, 0⟩,               -- 17 pinky base
   ⟨0, 0, 1⟩,               -- 18 pinky mid (dist² 1)
   ⟨0, 0, 0⟩,               -- 19
   ⟨0, 0, 1⟩]               -- 20 pinky tip: not extended

/-- The full landmark-analyzer verdict for one hand, as the consensus step
computes it: finger extension states fed to `determineGesture`. -/
def analyzeHand (landmarks : List Landmark) : Option GestureResult :=
  (calculateFingerExtended landmarks).bind (fun fe => determineGesture fe landmarks)

/-- Modelled from the spec (§4.1 step 4, the claim's wording): index extended
AND middle extended AND (ring not-extended OR pinky not-extended) AND
normalized index/middle tip separation above the ≈0.05 hand-scale threshold
(squared form of the Euclidean comparison). This is the spec's predicate, to
be compared with the source's `determineGesture`. -/
def specVSignPredicate (landmarks : List Landmark) : Prop :=
  ∃ fe indexTip middleTip,
    calculateFingerExtended landmarks = some fe ∧
    landmarks[8]? = some indexTip ∧ landmarks[12]? = some middleTip ∧
    fe.index = true ∧ fe.middle = true ∧
    (fe.ring = false ∨ fe.pinky = false) ∧
    calculateDistanceSq indexTip middleTip > (5 / 100) ^ 2

end Landmarks

namespace Pixel

/-- An all-black 2×2 RGBA frame (every byte 0). -/
def blackImage : ImageData := ⟨List.replicate 16 0, 2, 2⟩

/-- Skin layout of the counterexample frame `gapFreeImage`: a solid 3×3-column
block (columns 4–6, rows 3–6) under which sits a 2×2 hand base (columns 4–5,
rows 7–8). The solid block matches the two finger regions and the base region
of the classic template (3 of its 4 regions) but leaves no skin–gap–skin
pattern anywhere in the mid band. -/
def gapFreeSkinAt (x y : ℕ) : Bool :=
  (4 ≤ x && x ≤ 6 && 3 ≤ y && y ≤ 6) || (4 ≤ x && x ≤ 5 && 7 ≤ y && y ≤ 8)

/-- A 10×10 RGBA frame: skin-tone bytes (130, 95, 65, 255) on
`gapFreeSkinAt`, black elsewhere. -/
def gapFreeImage : ImageData :=
  ⟨(((List.range 10).map (fun y => (List.range 10).map (fun x =>
      if gapFreeSkinAt x y then [130, 95, 65, 255] else [0, 0, 0, 255]))).map
        List.flatten).flatten, 10, 10⟩

/-- Modelled from the spec (§4.2 step 6, the claim's wording): a positive
verdict requires the best template score and the skin ratio to clear the
profile minimums, and the template score or the shape finger-gap flag to
hold. (The profile carries no template-score minimum of its own; the source's
fixed 0.6 threshold on the normalized score is used as that minimum.) This is
the spec's predicate, to be compared with the source's `processImageData`. -/
def specC7Predicate (settings : SensitivitySettings) (templates : List VTemplate)
    (img : ImageData) : Prop :=
  normalizedTemplateScoreOf templates img > 3 / 5 ∧
  (analyzeShapeOf settings img).skinRatio > settings.minSkinRatio ∧
  (normalizedTemplateScoreOf templates img > 3 / 5 ∨
    (analyzeShapeOf settings img).hasFingerGap = true)

end Pixel

/-!
Theorems. Two bridging lemmas first record, over the reals, that the squared
comparisons used by the embedding are exactly the float comparisons of the
source; then per-module helper lemmas; then the claim theorems.
-/

/-- Bridging lemma for the extension tests: for nonnegative squared distances,
the source comparison `k * sqrt b < sqrt a` is equivalent to the embedded
squared comparison `k^2 * b < a`. -/
theorem sqrt_gt_scaled_sqrt_iff (a b k : ℚ) (hb : 0 ≤ b) (hk : 0 < k) :
    (k : ℝ) * Real.sqrt (b : ℝ) < Real.sqrt (a : ℝ) ↔ (k : ℝ) ^ 2 * (b : ℝ) < (a : ℝ) := by
  have hks : (0:ℝ) < (k:ℝ) := by exact_mod_cast hk
  rw [show (k:ℝ) * Real.sqrt (b:ℝ) = Real.sqrt ((k:ℝ)^2 * (b:ℝ)) by
    rw [Real.sqrt_mul (sq_nonneg _), Real.sqrt_sq hks.le]]
  exact Real.sqrt_lt_sqrt_iff (mul_nonneg (sq_nonneg _) (by exact_mod_cast hb))

/-- Bridging lemma for the angle test: with `c` the unnormalized dot product
and `P > 0` the product of the squared vector lengths, the source test
`0.3 < (1 - c/sqrt P)/2 < 0.7` is equivalent to the embedded `25 c^2 < 4 P`. -/
theorem angle_range_iff_real (c P : ℚ) (hP : 0 < P) :
    ((3:ℝ)/10 < (1 - (c:ℝ) / Real.sqrt (P:ℝ)) / 2 ∧
      (1 - (c:ℝ) / Real.sqrt (P:ℝ)) / 2 < (7:ℝ)/10) ↔
    25 * (c:ℝ)^2 < 4 * (P:ℝ) := by
  have hPR : (0:ℝ) < (P:ℝ) := by exact_mod_cast hP
  have hs : (0:ℝ) < Real.sqrt (P:ℝ) := Real.sqrt_pos.mpr hPR
  have hs2 : Real.sqrt (P:ℝ) ^ 2 = (P:ℝ) := Real.sq_sqrt hPR.le
  set d : ℝ := (c:ℝ) / Real.sqrt (P:ℝ) with hd
  have hc : (c:ℝ) = d * Real.sqrt (P:ℝ) := by
    field_simp [hd]
  have hcs : 25 * (c:ℝ)^2 = 25 * d^2 * (P:ℝ) := by
    rw [hc, mul_pow, hs2]; ring
  constructor
  · rintro ⟨h1, h2⟩
    have hd1 : d < 2/5 := by linarith
    have hd2 : -(2/5) < d := by linarith
    have hdsq : d^2 < 4/25 := by nlinarith
    rw [hcs]
    nlinarith
  · intro h
    rw [hcs] at h
    have hdsq : d^2 < 4/25 := by nlinarith
    have hu : d < 2/5 := by nlinarith [sq_nonneg (d - 2/5), sq_nonneg (d + 2/5)]
    have hl : -(2/5) < d := by nlinarith [sq_nonneg (d - 2/5), sq_nonneg (d + 2/5)]
    constructor <;> linarith

namespace Landmarks

/-- Helper: a finger-extension test faults whenever its tip landmark is
missing (the earlier mid-joint read may fault first; either way no value is
produced). -/
theorem isFingerExtended_eq_none {landmarks : List Landmark} {baseIdx midIdx tipIdx : ℕ}
    (h : landmarks[tipIdx]? = Option.none) :
    isFingerExtended landmarks baseIdx midIdx tipIdx = Option.none := by
  unfold isFingerExtended
  cases hm : landmarks[midIdx]? <;> simp [hm, h]

/-- Helper: on fewer than 21 landmarks the extension computation faults:
index 20 (the pinky tip) is always dereferenced, and no earlier fault
produces a value either. -/
theorem calculateFingerExtended_short {landmarks : List Landmark}
    (h : landmarks.length < 21) : calculateFingerExtended landmarks = Option.none := by
  have h20 : landmarks[20]? = Option.none := by
    rw [List.getElem?_eq_none]
    omega
  unfold calculateFingerExtended
  cases h1 : isThumbExtended landmarks <;>
    cases h2 : isFingerExtended landmarks 5 6 8 <;>
      cases h3 : isFingerExtended landmarks 9 10 12 <;>
        cases h4 : isFingerExtended landmarks 13 14 16 <;>
          simp [h1, h2, h3, h4, isFingerExtended_eq_none h20]

/-- Helper: every sensitivity level requires at least one consecutive frame. -/
theorem requiredFramesFor_pos (s : Sensitivity) : 1 ≤ requiredFramesFor s := by
  cases s <;> decide

/-- Helper: the only `none`-gesture result `determineGesture` can produce
carries confidence 0.5 (and so never passes the 0.6 gate). -/
theorem determineGesture_none_conf {fe : FingerExtended} {landmarks : List Landmark}
    {gr : GestureResult} (h : determineGesture fe landmarks = some gr)
    (hg : gr.gesture = GestureType.none) : gr.confidence = 1 / 2 := by
  unfold determineGesture at h
  split at h
  · rcases h8 : landmarks[8]? with _ | it <;> rw [h8] at h
    · simp at h
    rcases h12 : landmarks[12]? with _ | mt <;> rw [h12] at h
    · simp at h
    rcases h5 : landmarks[5]? with _ | ib <;> rw [h5] at h
    · simp at h
    simp only [Option.pure_def, Option.bind_eq_bind, Option.some_bind] at h
    split at h <;>
      (simp only [Option.some.injEq] at h; rw [← h] at hg; simp at hg)
  · split at h
    · simp only [pure, Option.some.injEq] at h; rw [← h] at hg; simp at hg
    · split at h
      · simp only [pure, Option.some.injEq] at h; rw [← h] at hg; simp at hg
      · split at h
        · simp only [pure, Option.some.injEq] at h; rw [← h] at hg; simp at hg
        · split at h
          · simp only [pure, Option.some.injEq] at h; rw [← h] at hg; simp at hg
          · simp only [pure, Option.some.injEq] at h; rw [← h]

/-- Helper (invariant preservation): a non-faulting `processResults` call
keeps the displayed gesture at `none` and the consecutive counter at 0. The
trigger branch is unreachable from such a state: a confident result never has
gesture `none`, so the counter is reset below every `requiredFrames`. -/
theorem processResults_good {results : Option HandFrame} {st st' : HandState}
    (h1 : st.currentGesture = GestureType.none) (h2 : st.consecutiveFrames = 0)
    (h : processResults results st = some st') :
    st'.currentGesture = GestureType.none ∧ st'.consecutiveFrames = 0 := by
  cases results with
  | none =>
      simp only [processResults, Option.some.injEq] at h
      rw [← h]
      exact ⟨rfl, rfl⟩
  | some frame =>
      simp only [processResults] at h
      rcases hfe : calculateFingerExtended frame.landmarks with _ | fe <;> rw [hfe] at h
      · simp at h
      simp only [Option.pure_def, Option.bind_eq_bind, Option.some_bind] at h
      rcases hdg : determineGesture fe frame.landmarks with _ | gr <;> rw [hdg] at h
      · simp at h
      simp only [Option.some_bind] at h
      split at h
      · rename_i hconf
        have hne : gr.gesture ≠ GestureType.none := by
          intro hg
          have hc := determineGesture_none_conf hdg hg
          rw [hc] at hconf
          norm_num at hconf
        rw [h1] at h
        simp only [if_neg hne] at h
        split at h
        · rename_i hreq
          exfalso
          have := requiredFramesFor_pos st.sensitivity
          simp at hreq
          omega
        · simp only [Option.some.injEq] at h
          rw [← h]
          exact ⟨rfl, rfl⟩
      · simp only [Option.some.injEq] at h
        rw [← h]
        exact ⟨h1, h2⟩

/-- Helper: the invariant holds along every event sequence. -/
theorem foldl_good (evs : List DetectorEvent) (s : HandState)
    (hg : s.currentGesture = GestureType.none ∧ s.consecutiveFrames = 0) :
    (evs.foldl (fun s e => handleEvent e s) s).currentGesture = GestureType.none ∧
    (evs.foldl (fun s e => handleEvent e s) s).consecutiveFrames = 0 := by
  induction evs generalizing s with
  | nil => exact hg
  | cons e tl ih =>
      apply ih
      cases e with
      | frame r =>
          simp only [handleEvent]
          rcases hpr : processResults r s with _ | s1
          · simpa using hg
          · simpa using processResults_good hg.1 hg.2 hpr
      | setSensitivity l =>
          exact ⟨hg.1, hg.2⟩
      | resetCooldown =>
          exact ⟨hg.1, rfl⟩

/-- Helper: every reachable detector state displays gesture `none` with a
zero consecutive counter. -/
theorem reachable_good {st : HandState} (h : Reachable st) :
    st.currentGesture = GestureType.none ∧ st.consecutiveFrames = 0 := by
  obtain ⟨evs, rfl⟩ := h
  exact foldl_good evs initialHandState ⟨rfl, rfl⟩

/-- C2: for every call of the consensus step that consumes a negative frame
verdict, starting from any reachable detection state, the consecutive-positive
counter is reset to 0 and the externally displayed gesture becomes none. -/
theorem negative_verdict_resets (st : HandState) (hreach : Reachable st)
    (results : Option HandFrame) (st' : HandState)
    (hneg : NegativeVerdict results)
    (hstep : processResults results st = some st') :
    st'.consecutiveFrames = 0 ∧ st'.currentGesture = GestureType.none := by
  have hg := reachable_good hreach
  have hgood := processResults_good hg.1 hg.2 hstep
  exact ⟨hgood.2, hgood.1⟩

unseal Rat.add Rat.mul Rat.inv Rat.sub in
/-- Witness for C2: the initial state consuming a closed-fist frame (a
negative verdict with confidence 0.75). -/
theorem negative_verdict_resets_witness :
    (⟨some "Right", GestureType.none, 0, 0, false, Sensitivity.high⟩ :
      HandState).consecutiveFrames = 0 ∧
    (⟨some "Right", GestureType.none, 0, 0, false, Sensitivity.high⟩ :
      HandState).currentGesture = GestureType.none :=
  negative_verdict_resets initialHandState ⟨[], rfl⟩ (some ⟨fistHand, "Right"⟩)
    ⟨some "Right", GestureType.none, 0, 0, false, Sensitivity.high⟩
    ⟨⟨false, false, false, false, false⟩, ⟨GestureType.fist, 3/4⟩,
      by decide, by decide, by decide⟩
    (by decide)

unseal Rat.add Rat.mul Rat.inv Rat.sub in
/-- C3 counterexample: a 5-point landmark set makes the analyzer fault (an
out-of-range landmark dereference) instead of returning the verdict
isVictory = false with confidence 0 that the claim promises. -/
theorem short_landmarks_fault :
    shortHand.length = 5 ∧
    calculateFingerExtended shortHand = Option.none ∧
    processResults (some ⟨shortHand, "Right"⟩) initialHandState = Option.none := by
  refine ⟨by decide, by decide, by decide⟩

/-- C3 (amended): a hand-landmark set with fewer than 21 points makes the
geometry analyzer fault with an out-of-range landmark access (modelled
Option.none) rather than return a verdict; only a frame with no hand at all
resets the state to gesture none with confidence 0. -/
theorem geometry_short_input_faults (landmarks : List Landmark) (handedness : String)
    (st st0 : HandState) (h : landmarks.length < 21) :
    calculateFingerExtended landmarks = Option.none ∧
    processResults (some ⟨landmarks, handedness⟩) st = Option.none ∧
    processResults Option.none st0 =
      some { st0 with currentGesture := GestureType.none, confidence := 0,
                      consecutiveFrames := 0 } := by
  have hfe := calculateFingerExtended_short h
  refine ⟨hfe, ?_, rfl⟩
  simp [processResults, hfe]

/-- Witness for C3 (amended) at a 12-point landmark set. -/
theorem geometry_short_input_faults_witness :
    calculateFingerExtended shortHand12 = Option.none ∧
    processResults (some ⟨shortHand12, "Left"⟩) initialHandState = Option.none ∧
    processResults Option.none initialHandState =
      some { initialHandState with currentGesture := GestureType.none, confidence := 0,
                                   consecutiveFrames := 0 } :=
  geometry_short_input_faults shortHand12 "Left" initialHandState initialHandState
    (by decide)

unseal Rat.add Rat.mul Rat.inv Rat.sub in
/-- C4 counterexample: a 21-point hand with index, middle and ring extended,
pinky and thumb folded, and widely separated index/middle tips satisfies the
spec V-sign predicate (ring extended is allowed when the pinky is folded) but
the analyzer returns gesture none with confidence 0.5, not victory. -/
theorem victory_predicate_mismatch :
    specVSignPredicate ringExtendedHand ∧
    analyzeHand ringExtendedHand = some ⟨GestureType.none, 1/2⟩ := by
  constructor
  · exact ⟨⟨false, true, true, true, false⟩, ⟨0, 2, 0⟩, ⟨2, 0, 0⟩,
      by decide, by decide, by decide, by decide, by decide, by decide, by decide⟩
  · decide

/-- C4 (amended): for every complete 21-point landmark set the analyzer
produces a verdict, and that verdict is a victory sign exactly when index and
middle are extended AND thumb, ring and pinky are all not extended; the tip
separation plays no part in the verdict (the inter-finger angle only selects
the confidence). -/
theorem victory_iff_strict_pattern (landmarks : List Landmark)
    (h : 21 ≤ landmarks.length) :
    (analyzeHand landmarks).isSome = true ∧
    ((analyzeHand landmarks).map (fun gr => gr.gesture) = some GestureType.victory ↔
      (calculateFingerExtended landmarks).map (fun fe =>
        fe.index && fe.middle && !fe.thumb && !fe.ring && !fe.pinky) = some true) := by
  have h0 : landmarks[0]? = some landmarks[0] := List.getElem?_eq_getElem (by omega)
  have h2 : landmarks[2]? = some landmarks[2] := List.getElem?_eq_getElem (by omega)
  have h4 : landmarks[4]? = some landmarks[4] := List.getElem?_eq_getElem (by omega)
  have h5 : landmarks[5]? = some landmarks[5] := List.getElem?_eq_getElem (by omega)
  have h6 : landmarks[6]? = some landmarks[6] := List.getElem?_eq_getElem (by omega)
  have h8 : landmarks[8]? = some landmarks[8] := List.getElem?_eq_getElem (by omega)
  have h9 : landmarks[9]? = some landmarks[9] := List.getElem?_eq_getElem (by omega)
  have h10 : landmarks[10]? = some landmarks[10] := List.getElem?_eq_getElem (by omega)
  have h12 : landmarks[12]? = some landmarks[12] := List.getElem?_eq_getElem (by omega)
  have h13 : landmarks[13]? = some landmarks[13] := List.getElem?_eq_getElem (by omega)
  have h14 : landmarks[14]? = some landmarks[14] := List.getElem?_eq_getElem (by omega)
  have h16 : landmarks[16]? = some landmarks[16] := List.getElem?_eq_getElem (by omega)
  have h17 : landmarks[17]? = some landmarks[17] := List.getElem?_eq_getElem (by omega)
  have h18 : landmarks[18]? = some landmarks[18] := List.getElem?_eq_getElem (by omega)
  have h20 : landmarks[20]? = some landmarks[20] := List.getElem?_eq_getElem (by omega)
  have hfeSome : (calculateFingerExtended landmarks).isSome = true := by
    simp only [calculateFingerExtended, isThumbExtended, isFingerExtended,
      h0, h2, h4, h5, h6, h8, h9, h10, h12, h13, h14, h16, h17, h18, h20,
      Option.pure_def, Option.bind_eq_bind, Option.some_bind, Option.isSome_some]
  obtain ⟨fe, hfe⟩ := Option.isSome_iff_exists.mp hfeSome
  by_cases hcond : (fe.index && fe.middle && !fe.thumb && !fe.ring && !fe.pinky) = true
  · have hdg : ∃ gr, determineGesture fe landmarks = some gr ∧
        gr.gesture = GestureType.victory := by
      simp only [determineGesture, if_pos hcond, h8, h12, h5,
        Option.pure_def, Option.bind_eq_bind, Option.some_bind]
      split
      · exact ⟨_, rfl, rfl⟩
      · exact ⟨_, rfl, rfl⟩
    obtain ⟨gr, hgr, hv⟩ := hdg
    constructor
    · simp [analyzeHand, hfe, hgr]
    · simp [analyzeHand, hfe, hgr, hv, hcond]
  · have hdg : ∃ gr, determineGesture fe landmarks = some gr ∧
        gr.gesture ≠ GestureType.victory := by
      simp only [determineGesture, if_neg hcond]
      split
      · exact ⟨_, rfl, by decide⟩
      · split
        · exact ⟨_, rfl, by decide⟩
        · split
          · exact ⟨_, rfl, by decide⟩
          · split
            · exact ⟨_, rfl, by decide⟩
            · exact ⟨_, rfl, by decide⟩
    obtain ⟨gr, hgr, hv⟩ := hdg
    constructor
    · simp [analyzeHand, hfe, hgr]
    · simp only [analyzeHand, hfe, Option.some_bind, hgr, Option.map_some]
      constructor
      · intro hx
        exfalso
        apply hv
        simpa using hx
      · intro hx
        exfalso
        apply hcond
        simpa using hx

unseal Rat.add Rat.mul Rat.inv Rat.sub in
/-- Witness for C4 (amended) at the closed-fist hand (21 points, verdict
fist, pattern false on both sides of the equivalence). -/
theorem victory_iff_strict_pattern_witness :
    (analyzeHand fistHand).isSome = true ∧
    ((analyzeHand fistHand).map (fun gr => gr.gesture) = some GestureType.victory ↔
      (calculateFingerExtended fistHand).map (fun fe =>
        fe.index && fe.middle && !fe.thumb && !fe.ring && !fe.pinky) = some true) :=
  victory_iff_strict_pattern fistHand (by decide)

unseal Rat.add Rat.mul Rat.inv Rat.sub in
/-- C10 counterexample: a victory-shaped hand whose palm-to-index-tip 2D
vector has zero magnitude. The angle computation yields NaN (none), not the
angle 0 the claim promises, and the analyzer then returns the positive
verdict victory with confidence 0.7, not a negative verdict. -/
theorem zero_vector_gives_victory :
    calculateAngleBetweenFingers ⟨1, 1, 0⟩ ⟨1, 1, 3⟩ ⟨0, 3, 0⟩ = Option.none ∧
    calculateFingerExtended zeroMagHand = some ⟨false, true, true, false, false⟩ ∧
    analyzeHand zeroMagHand = some ⟨GestureType.victory, 7 / 10⟩ := by
  refine ⟨by decide, by decide, by decide⟩

/-- C10 (amended): a zero-magnitude direction vector makes the angle
computation divide by zero, producing NaN (modelled Option.none) rather than
short-circuiting to angle 0; no exception is raised, and the angle-range test
on NaN is false (so `determineGesture` falls through to the victory branch
with confidence 0.7 rather than degrading to a negative verdict). -/
theorem zero_vector_angle_nan (palmPoint finger1Tip finger2Tip : Landmark)
    (h : (finger1Tip.x - palmPoint.x) ^ 2 + (finger1Tip.y - palmPoint.y) ^ 2 = 0 ∨
         (finger2Tip.x - palmPoint.x) ^ 2 + (finger2Tip.y - palmPoint.y) ^ 2 = 0) :
    calculateAngleBetweenFingers palmPoint finger1Tip finger2Tip = Option.none ∧
    angleInVRange (calculateAngleBetweenFingers palmPoint finger1Tip finger2Tip) =
      false := by
  have hnone : calculateAngleBetweenFingers palmPoint finger1Tip finger2Tip =
      Option.none := by
    simp only [calculateAngleBetweenFingers]
    rw [if_pos h]
  exact ⟨hnone, by rw [hnone]; rfl⟩

unseal Rat.add Rat.mul Rat.inv Rat.sub in
/-- Witness for C10 (amended) at the coincident palm/index-tip pair. -/
theorem zero_vector_angle_nan_witness :
    calculateAngleBetweenFingers ⟨1, 1, 0⟩ ⟨1, 1, 3⟩ ⟨0, 3, 0⟩ = Option.none ∧
    angleInVRange (calculateAngleBetweenFingers ⟨1, 1, 0⟩ ⟨1, 1, 3⟩ ⟨0, 3, 0⟩) =
      false :=
  zero_vector_angle_nan ⟨1, 1, 0⟩ ⟨1, 1, 3⟩ ⟨0, 3, 0⟩ (by decide)

end Landmarks

namespace Pixel

/-- Helper: a frame call inside the cooldown window returns the active
display (gesture none, confidence 0.99) and leaves the state untouched. -/
theorem detect_cooldown_step (cooldownMs : ℤ) (required histSize : ℕ) (now : ℤ)
    (a : Option FrameVerdict) (st : DetectorState)
    (h : now - st.lastDetectionTime < cooldownMs) :
    detectGestureAux cooldownMs required histSize now (DetectInput.frame a) st =
      some (st, ⟨GestureType.none, 99/100⟩) := by
  simp only [detectGestureAux]
  rw [if_pos h]

unseal Rat.add Rat.mul Rat.inv Rat.sub in
/-- C1 counterexample: under the source configuration — the literals
DETECTION_COOLDOWN_MS = 300 and REQUIRED_POSITIVE_FRAMES = 3, which (see C5)
are not configurable — two positive verdicts consumed 100 ms apart emit zero
alerts, not the claimed one, and 600 ms apart also zero, not the claimed two:
a pair of positive frames never reaches the three-positive threshold. -/
theorem two_positives_emit_no_alert :
    DETECTION_COOLDOWN_MS = 300 ∧ REQUIRED_POSITIVE_FRAMES = 3 ∧
    countVictories (runDetect DETECTION_COOLDOWN_MS REQUIRED_POSITIVE_FRAMES
      FRAME_HISTORY_SIZE initialDetectorState
      [(1000, DetectInput.frame (some ⟨true, 9/10⟩)),
       (1100, DetectInput.frame (some ⟨true, 9/10⟩))]).2 = 0 ∧
    countVictories (runDetect DETECTION_COOLDOWN_MS REQUIRED_POSITIVE_FRAMES
      FRAME_HISTORY_SIZE initialDetectorState
      [(1000, DetectInput.frame (some ⟨true, 9/10⟩)),
       (1600, DetectInput.frame (some ⟨true, 9/10⟩))]).2 = 0 := by
  refine ⟨rfl, rfl, by decide, by decide⟩

/-- C1 (amended): under the source's literal configuration (cooldown 300 ms,
three required positive frames), every pair of positive per-frame verdicts
emits exactly zero alerts whatever their spacing — two positives cannot reach
the three-positive threshold — and while now − lastDetectionTime is below the
cooldown a frame call emits no alert and leaves the detector state unchanged
(it returns gesture none with confidence 0.99). -/
theorem cooldown_exclusion_literal :
    (∀ (t1 t2 : ℤ) (c1 c2 : ℚ),
      countVictories (runDetect DETECTION_COOLDOWN_MS REQUIRED_POSITIVE_FRAMES
        FRAME_HISTORY_SIZE initialDetectorState
        [(t1, DetectInput.frame (some ⟨true, c1⟩)),
         (t2, DetectInput.frame (some ⟨true, c2⟩))]).2 = 0) ∧
    (∀ (st : DetectorState) (now : ℤ) (a : Option FrameVerdict),
      now - st.lastDetectionTime < DETECTION_COOLDOWN_MS →
      detectGesture now (DetectInput.frame a) st =
        some (st, ⟨GestureType.none, 99/100⟩)) := by
  constructor
  · intro t1 t2 c1 c2
    by_cases h1 : t1 < 300 <;> by_cases h2 : t2 < 300 <;>
      simp [runDetect, detectGestureAux, initialDetectorState, countVictories,
        DETECTION_COOLDOWN_MS, REQUIRED_POSITIVE_FRAMES, FRAME_HISTORY_SIZE,
        List.countP, List.countP.go, h1, h2]
  · intro st now a h
    exact detect_cooldown_step DETECTION_COOLDOWN_MS REQUIRED_POSITIVE_FRAMES
      FRAME_HISTORY_SIZE now a st h

/-- Witness for C1 (amended): the 2000/2100 ms pair emits zero alerts, and a
frame call 100 ms after a stamped trigger is suppressed unchanged. -/
theorem cooldown_exclusion_literal_witness :
    countVictories (runDetect DETECTION_COOLDOWN_MS REQUIRED_POSITIVE_FRAMES
      FRAME_HISTORY_SIZE initialDetectorState
      [(2000, DetectInput.frame (some ⟨true, 8/10⟩)),
       (2100, DetectInput.frame (some ⟨true, 8/10⟩))]).2 = 0 ∧
    detectGesture 2100 (DetectInput.frame (some ⟨true, 8/10⟩))
        ⟨2000, [true], initialSensitivitySettings⟩ =
      some (⟨2000, [true], initialSensitivitySettings⟩,
        ⟨GestureType.none, 99/100⟩) :=
  ⟨cooldown_exclusion_literal.1 2000 2100 (8/10) (8/10),
   cooldown_exclusion_literal.2 ⟨2000, [true], initialSensitivitySettings⟩ 2100
     (some ⟨true, 8/10⟩) (by decide)⟩

unseal Rat.add Rat.mul Rat.inv Rat.sub in
/-- C5 counterexample: at sensitivity high the profile carries
frameThreshold = 1, yet a single positive frame does not trigger — the
consensus step still compares against the literal REQUIRED_POSITIVE_FRAMES
= 3 and returns gesture none (so the required count in effect is not the
profile parameter). -/
theorem required_frames_not_profile :
    (sensitivitySettingsFor SensitivityLevel.high).frameThreshold = 1 ∧
    REQUIRED_POSITIVE_FRAMES = 3 ∧
    detectGesture 1000 (DetectInput.frame (some ⟨true, 9/10⟩))
        (setDetectionSensitivity SensitivityLevel.high initialDetectorState) =
      some (⟨0, [true], sensitivitySettingsFor SensitivityLevel.high⟩,
        ⟨GestureType.none, 3/10⟩) := by
  refine ⟨rfl, rfl, ?_⟩
  decide

/-- C5 (amended): the profile frameThreshold field is monotone
(low ≥ medium ≥ high) and every sensitivity change clears the frame history,
but the required-positive-frame count the consensus machine uses is the fixed
literal: the gesture decision of the detection step is identical under every
sensitivity profile. -/
theorem sensitivity_profile_facts :
    ((sensitivitySettingsFor SensitivityLevel.medium).frameThreshold ≤
        (sensitivitySettingsFor SensitivityLevel.low).frameThreshold ∧
     (sensitivitySettingsFor SensitivityLevel.high).frameThreshold ≤
        (sensitivitySettingsFor SensitivityLevel.medium).frameThreshold) ∧
    (∀ (level : SensitivityLevel) (st : DetectorState),
      (setDetectionSensitivity level st).frameHistory = []) ∧
    (∀ (level1 level2 : SensitivityLevel) (st : DetectorState) (now : ℤ)
        (input : DetectInput),
      (detectGesture now input (setDetectionSensitivity level1 st)).map
          (fun r => r.2.gesture) =
      (detectGesture now input (setDetectionSensitivity level2 st)).map
          (fun r => r.2.gesture)) := by
  refine ⟨⟨by decide, by decide⟩, fun level st => rfl,
    fun level1 level2 st now input => ?_⟩
  cases input with
  | noVideo => rfl
  | noCapture =>
      simp only [detectGesture, detectGestureAux, setDetectionSensitivity]
      split <;> rfl
  | thrown =>
      simp only [detectGesture, detectGestureAux, setDetectionSensitivity]
      split <;> rfl
  | frame a =>
      simp only [detectGesture, detectGestureAux, setDetectionSensitivity]
      split
      · rfl
      · cases a with
        | none => rfl
        | some result =>
            simp only []
            split
            · rfl
            · split
              · rfl
              · split <;> rfl

unseal Rat.add Rat.mul Rat.inv Rat.sub in
/-- C6 counterexample: an all-black frame resolves to isVictory = false with
confidence 0 — not the confidence of at least 0.9 the claim promises. -/
theorem dark_frame_confidence_zero :
    analyzeFrame initialSensitivitySettings vSignTemplates true (some blackImage) =
      some ⟨false, 0⟩ ∧
    ¬((0:ℚ) ≥ 9/10) := by
  refine ⟨by decide, by norm_num⟩

/-- C6 (amended): every well-formed frame all of whose sampled pixels are
darker than 30 trips the dark pre-filter and resolves to isVictory = false
with confidence 0, whatever the template library — template matching is
never run on it (the result does not depend on the templates). -/
theorem dark_frame_negative_verdict (settings : SensitivitySettings)
    (templates : List VTemplate) (img : ImageData)
    (hlen : img.data.length = 4 * (img.width * img.height))
    (hpos : 0 < img.width * img.height)
    (hdark : ∀ i ∈ sampledIdxs img.data, brightnessAt img.data i < 30) :
    isImageTooDark img.data = true ∧
    analyzeFrame settings templates true (some img) = some ⟨false, 0⟩ := by
  have hcount : (sampledIdxs img.data).countP
      (fun i => decide (brightnessAt img.data i < 30)) =
      (sampledIdxs img.data).length := by
    apply List.countP_eq_length.mpr
    intro i hi
    exact decide_eq_true (hdark i hi)
  have hlength : (sampledIdxs img.data).length = (img.data.length + 15) / 16 := by
    simp [sampledIdxs]
  have hub : img.data.length ≤ 16 * ((img.data.length + 15) / 16) := by omega
  have hNpos : 0 < img.data.length := by omega
  have htoodark : isImageTooDark img.data = true := by
    simp only [isImageTooDark]
    rw [hcount, hlength, decide_eq_true_eq]
    have hden : (0:ℚ) < ((img.data.length : ℚ) / 4) / 4 := by positivity
    have hge : ((img.data.length : ℚ) / 4) / 4 ≤
        (((img.data.length + 15) / 16 : ℕ) : ℚ) := by
      rw [div_div, show (4 * 4 : ℚ) = 16 from by norm_num,
        div_le_iff₀ (by norm_num : (0:ℚ) < 16)]
      have h16 : ((img.data.length : ℚ)) ≤
          16 * (((img.data.length + 15) / 16 : ℕ) : ℚ) := by
        exact_mod_cast hub
      linarith
    calc (85:ℚ)/100 < 1 := by norm_num
    _ ≤ (((img.data.length + 15) / 16 : ℕ) : ℚ) / (((img.data.length : ℚ) / 4) / 4) :=
      (one_le_div hden).mpr hge
  refine ⟨htoodark, ?_⟩
  simp [analyzeFrame, htoodark]

unseal Rat.add Rat.mul Rat.inv Rat.sub in
/-- Witness for C6 (amended) at the all-black 2×2 frame with the full
template library. -/
theorem dark_frame_negative_verdict_witness :
    isImageTooDark blackImage.data = true ∧
    analyzeFrame initialSensitivitySettings vSignTemplates true (some blackImage) =
      some ⟨false, 0⟩ :=
  dark_frame_negative_verdict initialSensitivitySettings vSignTemplates blackImage
    (by decide) (by decide) (by decide)

set_option maxRecDepth 1000000 in
set_option maxHeartbeats 4000000 in
unseal Rat.add Rat.mul Rat.inv Rat.sub in
/-- C7 counterexample: a 10×10 frame whose skin layout matches three of the
four classic-template regions (normalized score 0.75 > 0.6) with skin ratio
0.16 inside the profile band, but with no skin-gap-skin pattern: the claim
predicate (template and skin minimums cleared, and template-or-gap) holds,
yet the verdict is negative — the finger-gap flag is a mandatory conjunct in
the code, not a disjunct. -/
theorem fusion_rule_mismatch :
    specC7Predicate initialSensitivitySettings vSignTemplates gapFreeImage ∧
    (processImageData initialSensitivitySettings vSignTemplates gapFreeImage).isVictory =
      false := by
  refine ⟨⟨by decide, by decide, Or.inl (by decide)⟩, by decide⟩

/-- C7 (amended): the verdict of processImageData is positive exactly when
the normalized best template score exceeds the fixed literal 0.6 AND the
shape finger-gap flag is set AND the skin ratio lies strictly inside the
profile band (above the minimum and below the maximum); the confidence is
the 0.7/0.3-weighted fusion on a positive verdict and 0.1 otherwise. -/
theorem victory_verdict_characterization (settings : SensitivitySettings)
    (templates : List VTemplate) (img : ImageData) :
    (processImageData settings templates img).isVictory =
      (decide (normalizedTemplateScoreOf templates img > 3/5) &&
       (analyzeShapeOf settings img).hasFingerGap &&
       decide ((analyzeShapeOf settings img).skinRatio > settings.minSkinRatio) &&
       decide ((analyzeShapeOf settings img).skinRatio < settings.maxSkinRatio)) ∧
    (processImageData settings templates img).confidence =
      (if (processImageData settings templates img).isVictory = true then
        normalizedTemplateScoreOf templates img * (7/10) +
          (analyzeShapeOf settings img).shapeConfidence * (3/10)
       else 1/10) := by
  exact ⟨rfl, rfl⟩

/-- C8 counterexample: on an image-decode error the analysis promise never
settles (the source installs no onerror handler), so the detection call does
not resolve at all — in particular it does not resolve to the verdict
isVictory = false with confidence 0 that the claim promises. -/
theorem decode_error_never_resolves :
    analyzeFrame initialSensitivitySettings vSignTemplates true Option.none =
      Option.none ∧
    (Option.none : Option FrameVerdict) ≠ some ⟨false, 0⟩ :=
  ⟨rfl, by decide⟩

/-- C8 (amended): a decode error leaves the analysis pending forever (no
verdict, modelled Option.none); a missing canvas context resolves
isVictory = false with confidence 0; and an exception caught by the
detection call resolves gesture none with confidence 0.99 — in every case
the call is a total function, so nothing propagates to the calling loop. -/
theorem failure_path_behavior :
    (∀ (settings : SensitivitySettings) (templates : List VTemplate) (ctxOk : Bool),
      analyzeFrame settings templates ctxOk Option.none = Option.none) ∧
    (∀ (settings : SensitivitySettings) (templates : List VTemplate) (img : ImageData),
      analyzeFrame settings templates false (some img) = some ⟨false, 0⟩) ∧
    (∀ (cooldownMs : ℤ) (required histSize : ℕ) (now : ℤ) (st : DetectorState),
      detectGestureAux cooldownMs required histSize now DetectInput.thrown st =
        some (st, ⟨GestureType.none, 99/100⟩)) := by
  refine ⟨fun _ _ _ => rfl, fun _ _ _ => rfl,
    fun cooldownMs required histSize now st => ?_⟩
  simp only [detectGestureAux]
  split <;> rfl

end Pixel

namespace Component

/-- C9: a manual-capture command issued in any component state — the cooldown
flag, progress, and alert bookkeeping are arbitrary, covering the
TRIGGERED/cooldown situation — immediately emits a GestureAlert with
gestureType manual and confidence 1.0, given an available camera and a
successful capture; the emitted alert is identical whatever the state, so
the consensus state machine and cooldown gating play no part in it. -/
theorem manual_capture_emits (s s' : ComponentState) (imageData : String)
    (now : ℤ) (alertId : String) :
    (handleManualCapture true (some imageData) now alertId s).2 =
      some ⟨alertId, now, Pixel.GestureType.manual, 1, some imageData,
        "Primary Camera", false⟩ ∧
    (handleManualCapture true (some imageData) now alertId s).2 =
      (handleManualCapture true (some imageData) now alertId s').2 :=
  ⟨rfl, rfl⟩

end Component
